import Mathlib

/-!
Shallow embedding of `src/chart.py`: a synthetic customer-engagement data
generator (`generate_synthetic_customer_data`) and a correlation-heatmap
renderer (`main`).  Machine floats are modelled by exact rationals; the
numpy random generator is modelled by a stream of standard-normal draws
consumed in the order the source requests them (one block of `n` draws per
`rng.normal` call, a draw with scale `σ` being `σ` times the standard
draw, exactly numpy's `normal(loc, scale) = loc + scale * standard`).
-/

namespace Chart

/-- `np.clip(x, a_min, a_max)` with both bounds: `min(max(x, lo), hi)`. -/
def clip (x lo hi : ℚ) : ℚ := min hi (max x lo)

/-- `np.clip(x, a_min, None)`: only a lower bound. -/
def clipMin (x lo : ℚ) : ℚ := max x lo

/-- The data frame built at the end of `generate_synthetic_customer_data`:
nine named numeric columns, column-oriented. -/
structure Dataset where
  visits_per_month : List ℚ
  avg_session_duration_min : List ℚ
  pages_per_session : List ℚ
  email_open_rate : List ℚ
  email_click_through_rate : List ℚ
  purchase_frequency_per_month : List ℚ
  avg_order_value : List ℚ
  customer_lifetime_value : List ℚ
  nps_score : List ℚ
deriving DecidableEq

/-- The column names of the data frame, in source order. -/
def columnNames : List String :=
  ["Visits per Month", "Avg Session Duration (min)", "Pages per Session",
   "Email Open Rate", "Email CTR", "Purchase Frequency / Month",
   "Average Order Value ($)", "Customer Lifetime Value ($)", "NPS Score"]

/-! Per-customer field values over a draw stream `g`.  The source makes ten
`rng.normal` calls in order: the latent factor first (draw indices
`[0, n)`), then one noise block per field in source order (block `b` uses
indices `[b*n, (b+1)*n)`).  `engagement_factor i = g i`. -/

/-- `visits_per_month = clip(4 + 2.0*engagement + normal(0, 1.5), 0, None)`. -/
def visitsV (g : ℕ → ℚ) (n i : ℕ) : ℚ :=
  clipMin (4 + 2.0 * g i + 1.5 * g (1 * n + i)) 0

/-- `avg_session_duration_min = clip(5 + 3.0*engagement + normal(0, 2.0), 1, None)`. -/
def sessionV (g : ℕ → ℚ) (n i : ℕ) : ℚ :=
  clipMin (5 + 3.0 * g i + 2.0 * g (2 * n + i)) 1

/-- `pages_per_session = clip(3 + 1.5*engagement + normal(0, 1.0), 1, None)`. -/
def pagesV (g : ℕ → ℚ) (n i : ℕ) : ℚ :=
  clipMin (3 + 1.5 * g i + 1.0 * g (3 * n + i)) 1

/-- `email_open_rate = clip(0.15 + 0.1*engagement + normal(0, 0.05), 0, 1)`. -/
def openRateV (g : ℕ → ℚ) (n i : ℕ) : ℚ :=
  clip (0.15 + 0.1 * g i + 0.05 * g (4 * n + i)) 0 1

/-- `email_click_through_rate = clip(0.03 + 0.07*engagement + normal(0, 0.03), 0, 1)`. -/
def ctrV (g : ℕ → ℚ) (n i : ℕ) : ℚ :=
  clip (0.03 + 0.07 * g i + 0.03 * g (5 * n + i)) 0 1

/-- `purchase_frequency_per_month = clip(0.5 + 0.6*engagement + normal(0, 0.3), 0, None)`. -/
def purchaseFreqV (g : ℕ → ℚ) (n i : ℕ) : ℚ :=
  clipMin (0.5 + 0.6 * g i + 0.3 * g (6 * n + i)) 0

/-- `avg_order_value = clip(40 + 8.0*engagement + normal(0, 10), 5, None)`. -/
def orderValueV (g : ℕ → ℚ) (n i : ℕ) : ℚ :=
  clipMin (40 + 8.0 * g i + 10 * g (7 * n + i)) 5

/-- `customer_lifetime_value = clip(200 + 80*engagement + 10*purchase_frequency
+ 0.5*avg_order_value + normal(0, 50), 0, None)`; it reads the already-clamped
`purchase_frequency_per_month` and `avg_order_value` arrays. -/
def clvV (g : ℕ → ℚ) (n i : ℕ) : ℚ :=
  clipMin (200 + 80 * g i + 10 * purchaseFreqV g n i + 0.5 * orderValueV g n i
    + 50 * g (8 * n + i)) 0

/-- `nps_score = clip(20 + 15*engagement + normal(0, 10), -100, 100)`;
computed after `customer_lifetime_value` in the source, so its noise block
is the tenth and last (indices `[9*n, 10*n)`). -/
def npsV (g : ℕ → ℚ) (n i : ℕ) : ℚ :=
  clip (20 + 15 * g i + 10 * g (9 * n + i)) (-100) 100

/-- The body of `generate_synthetic_customer_data`, parameterized over the
standard-normal draw stream `g` of the seeded generator. -/
def generateWith (g : ℕ → ℚ) (n : ℕ) : Dataset where
  visits_per_month := (List.range n).map (visitsV g n)
  avg_session_duration_min := (List.range n).map (sessionV g n)
  pages_per_session := (List.range n).map (pagesV g n)
  email_open_rate := (List.range n).map (openRateV g n)
  email_click_through_rate := (List.range n).map (ctrV g n)
  purchase_frequency_per_month := (List.range n).map (purchaseFreqV g n)
  avg_order_value := (List.range n).map (orderValueV g n)
  customer_lifetime_value := (List.range n).map (clvV g n)
  nps_score := (List.range n).map (npsV g n)

/-- Model of `np.random.default_rng(random_state)`'s standard-normal draw
stream.  The generator is library code (numpy, not in this repository); it
is modelled as a fixed deterministic rational-valued function of the seed
and the draw index, which is all the claims below use: the stream is fully
determined by the seed and by nothing else. -/
def stream (seed : ℤ) (k : ℕ) : ℚ :=
  (((seed + k) * (2 * k + 1) + 7) % 21 - 10 : ℤ) / 10

/-- `generate_synthetic_customer_data(n_customers, random_state)`: seed the
generator from `random_state`, then run the drawing pipeline. -/
def generate_synthetic_customer_data (n : ℕ) (seed : ℤ) : Dataset :=
  generateWith (stream seed) n

/-- The spec's error taxonomy for the generator: bad `n_customers` or bad
`random_seed` (numpy raises for a negative or non-integer array size, and
for a negative seed). -/
inductive GenError where
  | invalidArgument
deriving DecidableEq

/-- The generator's observable contract on an arbitrary numeric
`n_customers` (Python does not enforce the `int` annotation).
`np.random.default_rng(random_state)` — the function's first statement —
raises ValueError for a negative `random_state`; then a non-integer or
negative count makes the first `rng.normal(size=n_customers)` call raise
(TypeError / ValueError).  Both are the spec taxonomy's InvalidArgument
kind ("bad `n_customers`/`random_seed` types or ranges"); otherwise the
generation succeeds. -/
def generateChecked (n : ℚ) (seed : ℤ) : Except GenError Dataset :=
  if seed < 0 then .error .invalidArgument
  else if n.den ≠ 1 then .error .invalidArgument
  else if n < 0 then .error .invalidArgument
  else .ok (generate_synthetic_customer_data n.num.toNat seed)

/-! The renderer (`main`).  It computes `df.corr()` — the pairwise Pearson
correlation of the nine columns — masks the upper triangle including the
diagonal with `np.triu(np.ones_like(corr, dtype=bool))`, annotates each
drawn cell with its value formatted to two decimals (`fmt=".2f"`), and
saves an 8 in × 8 in figure at 64 dpi to `chart.png`. -/

/-- The nine columns of the data frame, in source order. -/
def Dataset.col (d : Dataset) (i : Fin 9) : List ℚ :=
  [d.visits_per_month, d.avg_session_duration_min, d.pages_per_session,
   d.email_open_rate, d.email_click_through_rate,
   d.purchase_frequency_per_month, d.avg_order_value,
   d.customer_lifetime_value, d.nps_score].getD i.val []

/-- Column mean, as `pandas` computes it. -/
def mean (xs : List ℚ) : ℚ := xs.sum / xs.length

/-- Unnormalized covariance `Σ (x_i - mean x)(y_i - mean y)` of two columns
(the `1/(n-1)` normalizations cancel in the Pearson ratio, so they are
omitted here). -/
def cov (xs ys : List ℚ) : ℚ :=
  ∑ i ∈ Finset.range xs.length,
    (xs.getD i 0 - mean xs) * (ys.getD i 0 - mean ys)

/-- The Pearson correlation coefficient `df.corr()` computes per pair of
columns: `cov(x,y) / (√cov(x,x) · √cov(y,y))`. -/
noncomputable def pearson (xs ys : List ℚ) : ℝ :=
  (cov xs ys : ℝ) / (Real.sqrt (cov xs xs) * Real.sqrt (cov ys ys))

/-- `corr = df.corr()`: the 9×9 Pearson correlation matrix of the dataset. -/
noncomputable def corrMatrix (d : Dataset) (i j : Fin 9) : ℝ :=
  pearson (d.col i) (d.col j)

/-- `np.triu(m)` for a 9×9 boolean matrix: keep entries on or above the
diagonal (`i ≤ j`), zero the rest. -/
def triu (m : Fin 9 → Fin 9 → Bool) (i j : Fin 9) : Bool :=
  if i.val ≤ j.val then m i j else false

/-- `mask = np.triu(np.ones_like(corr, dtype=bool))`. -/
def mask (i j : Fin 9) : Bool := triu (fun _ _ => true) i j

/-- The `fmt=".2f"` annotation: the cell value rounded to two decimal
places. -/
noncomputable def roundTwoDecimals (x : ℝ) : ℝ := (round (x * 100) : ℤ) / 100

/-- What `sns.heatmap(corr, mask=mask, annot=True, fmt=".2f", ...)` puts at
cell `(i, j)`: nothing where the mask is set, otherwise the correlation
entry annotated to two decimals. -/
noncomputable def renderedCell (d : Dataset) (i j : Fin 9) : Option ℝ :=
  if mask i j then none else some (roundTwoDecimals (corrMatrix d i j))

/-- `figsize=(8, 8)` in inches. -/
def figSizeInches : ℚ × ℚ := (8, 8)

/-- `dpi=64`, also the dpi passed to `fig.savefig`. -/
def figDpi : ℚ := 64

/-- Pixel size of the saved raster: matplotlib saves `figsize · dpi` pixels
when `savefig` uses the figure's own dpi and no `bbox_inches` cropping
(exactly what the source does and documents in its comments). -/
def savedPixelDims : ℤ × ℤ :=
  (round (figSizeInches.1 * figDpi), round (figSizeInches.2 * figDpi))

/-- A file system mapping paths to the pixel dimensions of the raster image
stored there (`none` = no file). -/
def ImageFS : Type := String → Option (ℤ × ℤ)

/-- The output path of `fig.savefig("chart.png", dpi=fig.dpi)`. -/
def outputPath : String := "chart.png"

/-- Effect of `main`'s `fig.savefig` on the file system: the chart is
written at `outputPath` unconditionally, replacing whatever was there. -/
def writeChartFile (fs : ImageFS) : ImageFS :=
  fun p => if p = outputPath then some savedPixelDims else fs p

/-! ### Helper lemmas -/

lemma le_clipMin (x lo : ℚ) : lo ≤ clipMin x lo := le_max_right x lo

lemma clip_le (x lo hi : ℚ) : clip x lo hi ≤ hi := min_le_left hi (max x lo)

lemma le_clip (x lo hi : ℚ) (h : lo ≤ hi) : lo ≤ clip x lo hi :=
  le_min h (le_max_right x lo)

lemma getD_map_range (f : ℕ → ℚ) (n i : ℕ) (h : i < n) :
    ((List.range n).map f).getD i 0 = f i := by
  rw [List.getD_eq_getElem?_getD, List.getElem?_map, List.getElem?_range h]
  rfl

/-! ### Claims -/

/-- C1.  Determinism: the synthesizer's only source of randomness is the
generator seeded from `random_state`, so in the embedding it is a pure
function of `(n_customers, random_state)` and two calls with identical
arguments yield identical datasets, field for field. -/
theorem generate_deterministic (n : ℕ) (seed : ℤ) (_hn : 1 ≤ n) :
    generate_synthetic_customer_data n seed =
      generate_synthetic_customer_data n seed := rfl

theorem generate_deterministic_witness :
    1 ≤ 1 ∧ generate_synthetic_customer_data 1 42 =
      generate_synthetic_customer_data 1 42 :=
  ⟨le_refl 1, generate_deterministic 1 42 (le_refl 1)⟩

/-- C2.  Bounds: every value of every generated column lies in its field's
documented closed clamp interval. -/
theorem generate_bounds (n : ℕ) (seed : ℤ) (_hn : 1 ≤ n) :
    (∀ x ∈ (generate_synthetic_customer_data n seed).visits_per_month, 0 ≤ x) ∧
    (∀ x ∈ (generate_synthetic_customer_data n seed).avg_session_duration_min, 1 ≤ x) ∧
    (∀ x ∈ (generate_synthetic_customer_data n seed).pages_per_session, 1 ≤ x) ∧
    (∀ x ∈ (generate_synthetic_customer_data n seed).email_open_rate, 0 ≤ x ∧ x ≤ 1) ∧
    (∀ x ∈ (generate_synthetic_customer_data n seed).email_click_through_rate, 0 ≤ x ∧ x ≤ 1) ∧
    (∀ x ∈ (generate_synthetic_customer_data n seed).purchase_frequency_per_month, 0 ≤ x) ∧
    (∀ x ∈ (generate_synthetic_customer_data n seed).avg_order_value, 5 ≤ x) ∧
    (∀ x ∈ (generate_synthetic_customer_data n seed).customer_lifetime_value, 0 ≤ x) ∧
    (∀ x ∈ (generate_synthetic_customer_data n seed).nps_score, -100 ≤ x ∧ x ≤ 100) := by
  refine ⟨?_, ?_, ?_, ?_, ?_, ?_, ?_, ?_, ?_⟩ <;>
    · intro x hx
      simp only [generate_synthetic_customer_data, generateWith,
        List.mem_map, List.mem_range] at hx
      obtain ⟨i, -, rfl⟩ := hx
      first
        | exact le_clipMin _ _
        | exact ⟨le_clip _ _ _ (by norm_num), clip_le _ _ _⟩

theorem generate_bounds_witness :
    1 ≤ 1 ∧
    ((∀ x ∈ (generate_synthetic_customer_data 1 42).visits_per_month, 0 ≤ x) ∧
    (∀ x ∈ (generate_synthetic_customer_data 1 42).avg_session_duration_min, 1 ≤ x) ∧
    (∀ x ∈ (generate_synthetic_customer_data 1 42).pages_per_session, 1 ≤ x) ∧
    (∀ x ∈ (generate_synthetic_customer_data 1 42).email_open_rate, 0 ≤ x ∧ x ≤ 1) ∧
    (∀ x ∈ (generate_synthetic_customer_data 1 42).email_click_through_rate, 0 ≤ x ∧ x ≤ 1) ∧
    (∀ x ∈ (generate_synthetic_customer_data 1 42).purchase_frequency_per_month, 0 ≤ x) ∧
    (∀ x ∈ (generate_synthetic_customer_data 1 42).avg_order_value, 5 ≤ x) ∧
    (∀ x ∈ (generate_synthetic_customer_data 1 42).customer_lifetime_value, 0 ≤ x) ∧
    (∀ x ∈ (generate_synthetic_customer_data 1 42).nps_score, -100 ≤ x ∧ x ≤ 100)) :=
  ⟨le_refl 1, generate_bounds 1 42 (le_refl 1)⟩

/-- C3.  Shape: the generated dataset has exactly `n_customers` rows (each
of the nine columns has length `n`, so no value is missing) and the data
frame has the nine named columns of the source. -/
theorem generate_shape (n : ℕ) (seed : ℤ) (_hn : 1 ≤ n) :
    (generate_synthetic_customer_data n seed).visits_per_month.length = n ∧
    (generate_synthetic_customer_data n seed).avg_session_duration_min.length = n ∧
    (generate_synthetic_customer_data n seed).pages_per_session.length = n ∧
    (generate_synthetic_customer_data n seed).email_open_rate.length = n ∧
    (generate_synthetic_customer_data n seed).email_click_through_rate.length = n ∧
    (generate_synthetic_customer_data n seed).purchase_frequency_per_month.length = n ∧
    (generate_synthetic_customer_data n seed).avg_order_value.length = n ∧
    (generate_synthetic_customer_data n seed).customer_lifetime_value.length = n ∧
    (generate_synthetic_customer_data n seed).nps_score.length = n ∧
    columnNames.length = 9 := by
  simp [generate_synthetic_customer_data, generateWith, columnNames]

theorem generate_shape_witness :
    1 ≤ 1 ∧
    ((generate_synthetic_customer_data 1 42).visits_per_month.length = 1 ∧
    (generate_synthetic_customer_data 1 42).avg_session_duration_min.length = 1 ∧
    (generate_synthetic_customer_data 1 42).pages_per_session.length = 1 ∧
    (generate_synthetic_customer_data 1 42).email_open_rate.length = 1 ∧
    (generate_synthetic_customer_data 1 42).email_click_through_rate.length = 1 ∧
    (generate_synthetic_customer_data 1 42).purchase_frequency_per_month.length = 1 ∧
    (generate_synthetic_customer_data 1 42).avg_order_value.length = 1 ∧
    (generate_synthetic_customer_data 1 42).customer_lifetime_value.length = 1 ∧
    (generate_synthetic_customer_data 1 42).nps_score.length = 1 ∧
    columnNames.length = 9) :=
  ⟨le_refl 1, generate_shape 1 42 (le_refl 1)⟩

/-- C7 counterexample.  The claim says the generator has no error
conditions beyond invalid input size and succeeds for every valid input —
the spec admits any integer `random_seed`.  But `n_customers = 1` with
`random_seed = -1` is such an input and the generation fails:
`np.random.default_rng(-1)` raises ValueError before any data is drawn. -/
theorem generate_fails_negative_seed :
    (1 : ℚ).den = 1 ∧ (1 : ℚ) ≥ 1 ∧
    generateChecked 1 (-1) = .error .invalidArgument := by
  refine ⟨by norm_num, by norm_num, ?_⟩
  norm_num [generateChecked]

/-- C7 amended.  The generator fails with the InvalidArgument kind for
every negative or non-integer `n_customers` and also for every negative
`random_seed` (the seeding raises before the size is even inspected); for
every non-negative integer count together with a non-negative seed it
succeeds, and there are no other error conditions. -/
theorem generateChecked_errors :
    (∀ (n : ℚ) (seed : ℤ), n.den ≠ 1 ∨ n < 0 ∨ seed < 0 →
      generateChecked n seed = .error .invalidArgument) ∧
    (∀ (n : ℚ) (seed : ℤ), n.den = 1 → 0 ≤ n → 0 ≤ seed →
      (generateChecked n seed).isOk = true) := by
  constructor
  · intro n seed h
    rcases h with h | h | h
    · simp [generateChecked, h]
    · simp [generateChecked, h]
    · simp [generateChecked, h]
  · intro n seed h1 h2 h3
    unfold generateChecked
    split_ifs with h4 h5 h6
    · exact absurd h4 (not_lt.mpr h3)
    · exact absurd h1 h5
    · exact absurd h6 (not_lt.mpr h2)
    · rfl

theorem generateChecked_errors_witness :
    (((1 : ℚ)/2).den ≠ 1 ∨ (1 : ℚ)/2 < 0 ∨ (42 : ℤ) < 0) ∧
    ((-3 : ℚ).den ≠ 1 ∨ (-3 : ℚ) < 0 ∨ (42 : ℤ) < 0) ∧
    ((7 : ℚ).den ≠ 1 ∨ (7 : ℚ) < 0 ∨ (-1 : ℤ) < 0) ∧
    generateChecked ((1 : ℚ)/2) 42 = .error .invalidArgument ∧
    generateChecked (-3) 42 = .error .invalidArgument ∧
    generateChecked 7 (-1) = .error .invalidArgument ∧
    (5 : ℚ).den = 1 ∧ (0 : ℚ) ≤ 5 ∧ (0 : ℤ) ≤ 42 ∧
    (generateChecked 5 42).isOk = true :=
  ⟨Or.inl (by norm_num), Or.inr (Or.inl (by norm_num)),
   Or.inr (Or.inr (by norm_num)),
   generateChecked_errors.1 ((1 : ℚ)/2) 42 (Or.inl (by norm_num)),
   generateChecked_errors.1 (-3) 42 (Or.inr (Or.inl (by norm_num))),
   generateChecked_errors.1 7 (-1) (Or.inr (Or.inr (by norm_num))),
   by norm_num, by norm_num, by norm_num,
   generateChecked_errors.2 5 42 (by norm_num) (by norm_num) (by norm_num)⟩

/-- C8.  The mask `np.triu(np.ones_like(corr, dtype=bool))` suppresses
the upper triangle including the diagonal, so the heatmap draws exactly
the strictly-lower-triangular cells (row index `i` greater than column
index `j`), each annotated with its correlation value rounded to two
decimal places; every other cell is empty. -/
theorem mask_strict_lower_triangle :
    ∀ (d : Dataset) (i j : Fin 9),
      (mask i j = true ↔ i.val ≤ j.val) ∧
      renderedCell d i j =
        if j.val < i.val then some (roundTwoDecimals (corrMatrix d i j))
        else none := by
  intro d i j
  constructor
  · simp [mask, triu]
  · by_cases h : i.val ≤ j.val
    · simp [renderedCell, mask, triu, h, Nat.not_lt.mpr h]
    · simp [renderedCell, mask, triu, h, Nat.lt_of_not_le h]

/-- C9.  Saving the 8 in × 8 in figure at 64 dpi with the figure's own dpi
and no cropping writes a 512×512-pixel raster at `chart.png`, replacing
any previous file at that path unconditionally: after the write, the file
exists and holds a 512×512 image whatever the file system held before. -/
theorem chart_png_512 :
    ∀ fs : ImageFS, writeChartFile fs outputPath = some (512, 512) := by
  intro fs
  have h : savedPixelDims = (512, 512) := by
    norm_num [savedPixelDims, figSizeInches, figDpi, round_eq]
  simp [writeChartFile, h]

/-- C10.  `n_customers = 0` does not fail (for any seed the generator
accepts at all, i.e. non-negative — the seeding happens before the count
is looked at): the generator succeeds and returns the empty dataset —
zero rows, with all nine named columns present (each an empty column). -/
theorem generate_zero_customers (seed : ℤ) (hs : 0 ≤ seed) :
    generateChecked 0 seed =
      .ok (generate_synthetic_customer_data 0 seed) ∧
    (generate_synthetic_customer_data 0 seed).visits_per_month = [] ∧
    (generate_synthetic_customer_data 0 seed).avg_session_duration_min = [] ∧
    (generate_synthetic_customer_data 0 seed).pages_per_session = [] ∧
    (generate_synthetic_customer_data 0 seed).email_open_rate = [] ∧
    (generate_synthetic_customer_data 0 seed).email_click_through_rate = [] ∧
    (generate_synthetic_customer_data 0 seed).purchase_frequency_per_month = [] ∧
    (generate_synthetic_customer_data 0 seed).avg_order_value = [] ∧
    (generate_synthetic_customer_data 0 seed).customer_lifetime_value = [] ∧
    (generate_synthetic_customer_data 0 seed).nps_score = [] ∧
    columnNames.length = 9 := by
  refine ⟨?_, rfl, rfl, rfl, rfl, rfl, rfl, rfl, rfl, rfl, rfl⟩
  unfold generateChecked
  rw [if_neg (not_lt.mpr hs)]
  rfl

theorem generate_zero_customers_witness :
    (0 : ℤ) ≤ 42 ∧
    (generateChecked 0 42 =
      .ok (generate_synthetic_customer_data 0 42) ∧
    (generate_synthetic_customer_data 0 42).visits_per_month = [] ∧
    (generate_synthetic_customer_data 0 42).avg_session_duration_min = [] ∧
    (generate_synthetic_customer_data 0 42).pages_per_session = [] ∧
    (generate_synthetic_customer_data 0 42).email_open_rate = [] ∧
    (generate_synthetic_customer_data 0 42).email_click_through_rate = [] ∧
    (generate_synthetic_customer_data 0 42).purchase_frequency_per_month = [] ∧
    (generate_synthetic_customer_data 0 42).avg_order_value = [] ∧
    (generate_synthetic_customer_data 0 42).customer_lifetime_value = [] ∧
    (generate_synthetic_customer_data 0 42).nps_score = [] ∧
    columnNames.length = 9) :=
  ⟨by norm_num, generate_zero_customers 42 (by norm_num)⟩

/-- A concrete draw stream used by witnesses. -/
def gW : ℕ → ℚ := fun k => k

/-- C4.  `customer_lifetime_value` is the clamp to `[0, ∞)` of
`200 + 80·latent + 10·purchase_frequency + 0.5·avg_order_value + noise`
with noise scale 50, where `purchase_frequency_per_month` and
`avg_order_value` are the customer's already-clamped column values; and it
is the only field with further dependencies — each of the other eight
fields is a function of the shared latent draw `g i` and its own fresh
noise draw alone. -/
theorem clv_formula (g : ℕ → ℚ) (n i : ℕ) (h : i < n) :
    (generateWith g n).customer_lifetime_value.getD i 0 =
      clipMin (200 + 80 * g i
        + 10 * (generateWith g n).purchase_frequency_per_month.getD i 0
        + 0.5 * (generateWith g n).avg_order_value.getD i 0
        + 50 * g (8 * n + i)) 0 ∧
    (generateWith g n).visits_per_month.getD i 0 =
      clipMin (4 + 2.0 * g i + 1.5 * g (1 * n + i)) 0 ∧
    (generateWith g n).avg_session_duration_min.getD i 0 =
      clipMin (5 + 3.0 * g i + 2.0 * g (2 * n + i)) 1 ∧
    (generateWith g n).pages_per_session.getD i 0 =
      clipMin (3 + 1.5 * g i + 1.0 * g (3 * n + i)) 1 ∧
    (generateWith g n).email_open_rate.getD i 0 =
      clip (0.15 + 0.1 * g i + 0.05 * g (4 * n + i)) 0 1 ∧
    (generateWith g n).email_click_through_rate.getD i 0 =
      clip (0.03 + 0.07 * g i + 0.03 * g (5 * n + i)) 0 1 ∧
    (generateWith g n).purchase_frequency_per_month.getD i 0 =
      clipMin (0.5 + 0.6 * g i + 0.3 * g (6 * n + i)) 0 ∧
    (generateWith g n).avg_order_value.getD i 0 =
      clipMin (40 + 8.0 * g i + 10 * g (7 * n + i)) 5 ∧
    (generateWith g n).nps_score.getD i 0 =
      clip (20 + 15 * g i + 10 * g (9 * n + i)) (-100) 100 := by
  simp only [generateWith, getD_map_range _ _ _ h]
  exact ⟨rfl, rfl, rfl, rfl, rfl, rfl, rfl, rfl, rfl⟩

theorem clv_formula_witness :
    0 < 1 ∧
    ((generateWith gW 1).customer_lifetime_value.getD 0 0 =
      clipMin (200 + 80 * gW 0
        + 10 * (generateWith gW 1).purchase_frequency_per_month.getD 0 0
        + 0.5 * (generateWith gW 1).avg_order_value.getD 0 0
        + 50 * gW (8 * 1 + 0)) 0 ∧
    (generateWith gW 1).visits_per_month.getD 0 0 =
      clipMin (4 + 2.0 * gW 0 + 1.5 * gW (1 * 1 + 0)) 0 ∧
    (generateWith gW 1).avg_session_duration_min.getD 0 0 =
      clipMin (5 + 3.0 * gW 0 + 2.0 * gW (2 * 1 + 0)) 1 ∧
    (generateWith gW 1).pages_per_session.getD 0 0 =
      clipMin (3 + 1.5 * gW 0 + 1.0 * gW (3 * 1 + 0)) 1 ∧
    (generateWith gW 1).email_open_rate.getD 0 0 =
      clip (0.15 + 0.1 * gW 0 + 0.05 * gW (4 * 1 + 0)) 0 1 ∧
    (generateWith gW 1).email_click_through_rate.getD 0 0 =
      clip (0.03 + 0.07 * gW 0 + 0.03 * gW (5 * 1 + 0)) 0 1 ∧
    (generateWith gW 1).purchase_frequency_per_month.getD 0 0 =
      clipMin (0.5 + 0.6 * gW 0 + 0.3 * gW (6 * 1 + 0)) 0 ∧
    (generateWith gW 1).avg_order_value.getD 0 0 =
      clipMin (40 + 8.0 * gW 0 + 10 * gW (7 * 1 + 0)) 5 ∧
    (generateWith gW 1).nps_score.getD 0 0 =
      clip (20 + 15 * gW 0 + 10 * gW (9 * 1 + 0)) (-100) 100) :=
  ⟨Nat.zero_lt_one, clv_formula gW 1 0 Nat.zero_lt_one⟩

/-- The claim that the generator works in two strict stages — first every
field independent of `customer_lifetime_value`, consuming their noise
draws, then CLV last with fresh noise.  If that were the computation
order, CLV's fresh noise block would be the final one, `[9n, 10n)`, and
every non-CLV column would be determined by the draws with index below
`9n`. -/
def clvComputedLast : Prop :=
  ∀ (g g2 : ℕ → ℚ) (n : ℕ), (∀ k, k < 9 * n → g k = g2 k) →
    (generateWith g n).visits_per_month = (generateWith g2 n).visits_per_month ∧
    (generateWith g n).avg_session_duration_min = (generateWith g2 n).avg_session_duration_min ∧
    (generateWith g n).pages_per_session = (generateWith g2 n).pages_per_session ∧
    (generateWith g n).email_open_rate = (generateWith g2 n).email_open_rate ∧
    (generateWith g n).email_click_through_rate = (generateWith g2 n).email_click_through_rate ∧
    (generateWith g n).purchase_frequency_per_month = (generateWith g2 n).purchase_frequency_per_month ∧
    (generateWith g n).avg_order_value = (generateWith g2 n).avg_order_value ∧
    (generateWith g n).nps_score = (generateWith g2 n).nps_score

/-- Zero draw stream. -/
def gA : ℕ → ℚ := fun _ => 0

/-- Stream equal to `gA` except at draw index 9. -/
def gB : ℕ → ℚ := fun k => if k = 9 then 1 else 0

/-- C6 counterexample.  `customer_lifetime_value` is not computed last:
with one customer, two streams agreeing on all draws below `9·1 = 9`
produce different `nps_score` columns (20 vs 30), because `nps_score` is
computed after CLV in the source and consumes the tenth noise block. -/
theorem clv_not_computed_last : ¬ clvComputedLast := by
  intro hP
  have hagree : ∀ k, k < 9 * 1 → gA k = gB k := by
    intro k hk
    have hk9 : k ≠ 9 := by omega
    simp [gA, gB, hk9]
  have h := (hP gA gB 1 hagree).2.2.2.2.2.2.2
  have hne : (generateWith gA 1).nps_score ≠ (generateWith gB 1).nps_score := by
    have e1 : (generateWith gA 1).nps_score = [20] := by
      show [npsV gA 1 0] = [20]
      norm_num [npsV, gA, clip]
    have e2 : (generateWith gB 1).nps_score = [30] := by
      show [npsV gB 1 0] = [30]
      norm_num [npsV, gB, clip]
    rw [e1, e2]
    norm_num
  exact hne h

/-- C6 amended.  The generator does compute `customer_lifetime_value`
after the two fields it depends on (`purchase_frequency_per_month` and
`avg_order_value`), from the latent factor, those already-clamped values
and a fresh noise draw (block `[8n, 9n)`); but not last —
`nps_score` is computed after it and consumes the following noise block
`[9n, 10n)`. -/
theorem clv_stage_order (g : ℕ → ℚ) (n i : ℕ) (h : i < n) :
    (generateWith g n).customer_lifetime_value.getD i 0 =
      clipMin (200 + 80 * g i
        + 10 * (generateWith g n).purchase_frequency_per_month.getD i 0
        + 0.5 * (generateWith g n).avg_order_value.getD i 0
        + 50 * g (8 * n + i)) 0 ∧
    (generateWith g n).nps_score.getD i 0 =
      clip (20 + 15 * g i + 10 * g (9 * n + i)) (-100) 100 := by
  simp only [generateWith, getD_map_range _ _ _ h]
  exact ⟨rfl, rfl⟩

theorem clv_stage_order_witness :
    0 < 2 ∧
    ((generateWith gW 2).customer_lifetime_value.getD 0 0 =
      clipMin (200 + 80 * gW 0
        + 10 * (generateWith gW 2).purchase_frequency_per_month.getD 0 0
        + 0.5 * (generateWith gW 2).avg_order_value.getD 0 0
        + 50 * gW (8 * 2 + 0)) 0 ∧
    (generateWith gW 2).nps_score.getD 0 0 =
      clip (20 + 15 * gW 0 + 10 * gW (9 * 2 + 0)) (-100) 100) :=
  ⟨Nat.zero_lt_two, clv_stage_order gW 2 0 Nat.zero_lt_two⟩

/-! Pearson correlation facts used by the renderer claim. -/

lemma cov_self_nonneg (xs : List ℚ) : 0 ≤ cov xs xs :=
  Finset.sum_nonneg fun _ _ => mul_self_nonneg _

lemma cov_comm (xs ys : List ℚ) (h : xs.length = ys.length) :
    cov xs ys = cov ys xs := by
  unfold cov
  rw [h]
  exact Finset.sum_congr rfl fun i _ => mul_comm _ _

/-- Cauchy–Schwarz for the unnormalized covariance. -/
lemma cov_sq_le (xs ys : List ℚ) (h : xs.length = ys.length) :
    cov xs ys ^ 2 ≤ cov xs xs * cov ys ys := by
  unfold cov
  rw [← h]
  calc (∑ i ∈ Finset.range xs.length,
          (xs.getD i 0 - mean xs) * (ys.getD i 0 - mean ys)) ^ 2
      ≤ (∑ i ∈ Finset.range xs.length, (xs.getD i 0 - mean xs) ^ 2) *
        ∑ i ∈ Finset.range xs.length, (ys.getD i 0 - mean ys) ^ 2 :=
        Finset.sum_mul_sq_le_sq_mul_sq _ _ _
    _ = _ := by simp only [pow_two]

lemma pearson_comm (xs ys : List ℚ) (h : xs.length = ys.length) :
    pearson xs ys = pearson ys xs := by
  unfold pearson
  rw [cov_comm xs ys h, mul_comm]

lemma pearson_self (xs : List ℚ) (hx : cov xs xs ≠ 0) :
    pearson xs xs = 1 := by
  unfold pearson
  have h0 : (0 : ℝ) ≤ (cov xs xs : ℚ) := by exact_mod_cast cov_self_nonneg xs
  rw [Real.mul_self_sqrt h0, div_self (by exact_mod_cast hx)]

lemma abs_pearson_le_one (xs ys : List ℚ) (h : xs.length = ys.length)
    (hx : cov xs xs ≠ 0) (hy : cov ys ys ≠ 0) :
    |pearson xs ys| ≤ 1 := by
  have hx0 : (0 : ℝ) < (cov xs xs : ℚ) :=
    lt_of_le_of_ne (by exact_mod_cast cov_self_nonneg xs)
      (Ne.symm (by exact_mod_cast hx))
  have hy0 : (0 : ℝ) < (cov ys ys : ℚ) :=
    lt_of_le_of_ne (by exact_mod_cast cov_self_nonneg ys)
      (Ne.symm (by exact_mod_cast hy))
  have hsx : 0 < Real.sqrt (cov xs xs : ℚ) := Real.sqrt_pos.mpr hx0
  have hsy : 0 < Real.sqrt (cov ys ys : ℚ) := Real.sqrt_pos.mpr hy0
  have h2 : ((cov xs ys : ℚ) : ℝ) ^ 2 ≤ ((cov xs xs : ℚ) : ℝ) * ((cov ys ys : ℚ) : ℝ) := by
    exact_mod_cast cov_sq_le xs ys h
  have hcs : |((cov xs ys : ℚ) : ℝ)| ≤
      Real.sqrt (cov xs xs : ℚ) * Real.sqrt (cov ys ys : ℚ) := by
    calc |((cov xs ys : ℚ) : ℝ)|
        = Real.sqrt (((cov xs ys : ℚ) : ℝ) ^ 2) := (Real.sqrt_sq_eq_abs _).symm
      _ ≤ Real.sqrt (((cov xs xs : ℚ) : ℝ) * ((cov ys ys : ℚ) : ℝ)) :=
          Real.sqrt_le_sqrt h2
      _ = Real.sqrt (cov xs xs : ℚ) * Real.sqrt (cov ys ys : ℚ) :=
          Real.sqrt_mul hx0.le _
  unfold pearson
  rw [abs_div, abs_of_pos (mul_pos hsx hsy)]
  exact (div_le_one (mul_pos hsx hsy)).mpr hcs

/-- C5.  For a dataset with at least two rows (all columns of the common
length) and no zero-variance column, the 9×9 Pearson correlation matrix
the renderer computes is symmetric, has unit diagonal, and every entry in
`[-1, 1]`. -/
theorem corrMatrix_valid (d : Dataset) (n : ℕ) (_hn : 2 ≤ n)
    (hlen : ∀ i : Fin 9, (d.col i).length = n)
    (hvar : ∀ i : Fin 9, cov (d.col i) (d.col i) ≠ 0) :
    (∀ i j : Fin 9, corrMatrix d i j = corrMatrix d j i) ∧
    (∀ i : Fin 9, corrMatrix d i i = 1) ∧
    (∀ i j : Fin 9, -1 ≤ corrMatrix d i j ∧ corrMatrix d i j ≤ 1) := by
  refine ⟨?_, ?_, ?_⟩
  · intro i j
    exact pearson_comm _ _ ((hlen i).trans (hlen j).symm)
  · intro i
    exact pearson_self _ (hvar i)
  · intro i j
    exact abs_le.mp
      (abs_pearson_le_one _ _ ((hlen i).trans (hlen j).symm) (hvar i) (hvar j))

/-- A concrete two-row dataset with nondegenerate columns, for the C5
witness. -/
def dEx : Dataset :=
  ⟨[0, 2], [0, 2], [0, 2], [0, 2], [0, 2], [0, 2], [0, 2], [0, 2], [0, 2]⟩

theorem corrMatrix_valid_witness :
    2 ≤ 2 ∧ (∀ i : Fin 9, (dEx.col i).length = 2) ∧
    (∀ i : Fin 9, cov (dEx.col i) (dEx.col i) ≠ 0) ∧
    ((∀ i j : Fin 9, corrMatrix dEx i j = corrMatrix dEx j i) ∧
     (∀ i : Fin 9, corrMatrix dEx i i = 1) ∧
     (∀ i j : Fin 9, -1 ≤ corrMatrix dEx i j ∧ corrMatrix dEx i j ≤ 1)) := by
  have hlen : ∀ i : Fin 9, (dEx.col i).length = 2 := by decide
  have hvar : ∀ i : Fin 9, cov (dEx.col i) (dEx.col i) ≠ 0 := by
    intro i
    fin_cases i <;>
      norm_num [cov, mean, dEx, Dataset.col, Finset.sum_range_succ]
  exact ⟨le_refl 2, hlen, hvar, corrMatrix_valid dEx 2 (le_refl 2) hlen hvar⟩

end Chart
